import Mathlib

/-!
Verification development for the bill_splitter backend.

Shallow embedding of the three core components:
* `_expand_items_to_unit_quantity` — backend/app/services/openai_service.py
* `validate_and_process_receipt` / `_determine_tax_scenario` /
  `_calculate_tax_percentages` — backend/app/services/receipt_validator.py
* `calculate_split` — backend/app/api/routes/split.py

Money amounts are modelled as exact rationals (`ℚ`); Python's `round(x, 2)`
(round-half-to-even at two decimals) is modelled by `round2`.  Python
`ValueError` / `HTTPException` raising is modelled as `Except.error`; the
diagnostic message strings carried by exceptions and warnings are abstracted
to tagged inductive values.  In-place mutation of the receipt dictionary by
the validator is modelled by returning the updated record.
-/

namespace BillSplitter

/-- Round-half-to-even to the nearest integer, as Python's built-in `round`
behaves on exact values. -/
def rhe (q : ℚ) : ℤ :=
  let f := ⌊q⌋
  if q - f < 1/2 then f
  else if 1/2 < q - f then f + 1
  else if Even f then f else f + 1

/-- Python `round(q, 2)`: round to two decimal places, ties to even. -/
def round2 (q : ℚ) : ℚ := (rhe (q * 100) : ℚ) / 100

/-- A receipt item: keys `name`, `quantity`, `unit_price`, `total_price` of the
item dictionaries used throughout the backend. -/
structure Item where
  name : String
  quantity : ℤ
  unit_price : ℚ
  total_price : ℚ
deriving DecidableEq, Repr

/-- One step of the loop body of
`OpenAIService._expand_items_to_unit_quantity`: the list of unit-quantity
items emitted for a single input item. -/
def expandItem (it : Item) : List Item :=
  if it.quantity ≤ 1 then
    [{ name := it.name, quantity := 1, unit_price := it.unit_price,
       total_price :=
         if it.quantity = 1 then it.total_price
         else if it.total_price > 0 then it.total_price else it.unit_price }]
  else
    let q : ℤ := it.quantity
    let per_unit_total : ℚ :=
      if q > 0 then
        (if it.total_price > 0 then round2 (it.total_price / (q : ℚ))
         else round2 it.unit_price)
      else round2 it.unit_price
    let per_unit_price := per_unit_total
    let firsts : List Item :=
      List.replicate (max (q - 1) 0).toNat
        { name := it.name, quantity := 1, unit_price := per_unit_price,
          total_price := per_unit_total }
    let accumulated := round2 (per_unit_total * ((q : ℚ) - 1))
    let last_total0 : ℚ :=
      if it.total_price > 0 then round2 (it.total_price - accumulated)
      else per_unit_total
    let last_total := if last_total0 < 0 then per_unit_total else last_total0
    firsts ++
      [{ name := it.name, quantity := 1, unit_price := per_unit_price,
         total_price := last_total }]

/-- Embedding of `OpenAIService._expand_items_to_unit_quantity`: expand every item to unit
quantity (the Python loop appends the per-item expansion in order). -/
def expand_items_to_unit_quantity (items : List Item) : List Item :=
  items.flatMap expandItem

/-- Sum of the `total_price` fields of a list of items. -/
def itemsTotal (items : List Item) : ℚ := (items.map (·.total_price)).sum

/-- An item whose expansion step cannot lose money: either it is already a
unit-quantity item, or it has positive total and the rounding remainder left
for the last emitted unit is nonnegative (so the negative-remainder fallback
of the code is not taken). -/
def goodItem (it : Item) : Prop :=
  it.quantity = 1 ∨
  (1 < it.quantity ∧ 0 < it.total_price ∧
    0 ≤ round2 (it.total_price -
      round2 (round2 (it.total_price / (it.quantity : ℚ)) * ((it.quantity : ℚ) - 1))))

/-! ### Receipt reconciler (`receipt_validator.py`) -/

/-- A tax/charge/discount line: keys `name`, `amount`, `percent` of the
`taxes_or_charges` dictionaries. -/
structure Charge where
  name : String
  amount : ℚ
  percent : Option ℚ
deriving DecidableEq, Repr

/-- The extracted receipt data consumed by the validator
(`subtotal = 0` means "not stated on the receipt"). -/
structure Receipt where
  items : List Item
  subtotal : ℚ
  taxes_or_charges : List Charge
  grand_total : ℚ
deriving DecidableEq, Repr

/-- Tax scenario tags returned by `_determine_tax_scenario`. -/
inductive TaxScenario where
  | tax_exclusive
  | tax_inclusive
  | no_taxes
deriving DecidableEq, Repr

/-- The distinct `ValueError` sites of `validate_and_process_receipt` /
`_determine_tax_scenario`, tagged with the spec's error names (the Python code
raises `ValueError` with a diagnostic message at each site). -/
inductive ReconError where
  | MissingGrandTotal
  | ItemsSubtotalMismatch
  | GrandTotalMismatch
  | ItemsGrandTotalMismatch
  | AmbiguousTotals
deriving DecidableEq, Repr

/-- Sum of the `amount` fields of the charge lines. -/
def chargesTotal (charges : List Charge) : ℚ := (charges.map (·.amount)).sum

/-- Embedding of `ReceiptValidatorService._determine_tax_scenario`: decide the tax scenario
and the final subtotal, or fail.  All tolerances in the code are `0.01`. -/
def determine_tax_scenario (calculated_items_total provided_subtotal
    total_taxes_charges grand_total : ℚ) : Except ReconError (ℚ × TaxScenario) :=
  if provided_subtotal > 1/100 then
    -- Scenario 1: subtotal explicitly provided (tax-exclusive)
    if |calculated_items_total - provided_subtotal| > 1/100 then
      .error .ItemsSubtotalMismatch
    else if |provided_subtotal + total_taxes_charges - grand_total| > 1/100 then
      .error .GrandTotalMismatch
    else
      .ok (provided_subtotal, .tax_exclusive)
  else
    -- Scenario 2: no subtotal provided
    if total_taxes_charges = 0 then
      if |calculated_items_total - grand_total| ≤ 1/100 then
        .ok (grand_total, .no_taxes)
      else
        .error .ItemsGrandTotalMismatch
    else
      if |calculated_items_total - grand_total| ≤ 1/100 then
        .ok (grand_total, .tax_inclusive)
      else if |calculated_items_total - (grand_total - total_taxes_charges)| ≤ 1/100 ∧
          grand_total - total_taxes_charges ≥ 0 then
        .ok (grand_total - total_taxes_charges, .tax_exclusive)
      else
        .error .AmbiguousTotals

/-- Embedding of `ReceiptValidatorService._calculate_tax_percentages`: annotate every charge
line with its computed `percent` (an in-place mutation in the Python code,
modelled by returning the updated list). -/
def calculate_tax_percentages (taxes_or_charges : List Charge)
    (final_subtotal total_taxes_charges : ℚ) (tax_scenario : TaxScenario) :
    List Charge :=
  if total_taxes_charges = 0 ∨ final_subtotal ≤ 0 then taxes_or_charges
  else
    taxes_or_charges.map (fun c =>
      { c with percent := some (
          if tax_scenario = .tax_inclusive then
            (if final_subtotal - total_taxes_charges > 0 then
              round2 (c.amount / (final_subtotal - total_taxes_charges) * 100)
             else 0)
          else
            round2 (c.amount / final_subtotal * 100)) })

/-- The `_validation_info` dictionary attached to the validated data. -/
structure ValidationInfo where
  tax_scenario : TaxScenario
  items_total : ℚ
  final_subtotal : ℚ
  total_taxes_charges : ℚ
  validation_passed : Bool
deriving DecidableEq, Repr

/-- Embedding of `ReceiptValidatorService.validate_and_process_receipt`: validate the
extracted data and return the updated receipt record (the Python code mutates
`data` in place — overwriting `data["subtotal"]` and each charge's `percent` —
and returns the same dictionary; the returned pair models the mutated record
plus the added `_validation_info` entry). -/
def validate_and_process_receipt (data : Receipt) :
    Except ReconError (Receipt × ValidationInfo) :=
  if data.grand_total ≤ 0 then .error .MissingGrandTotal
  else
    let calculated_items_total := itemsTotal data.items
    let total_taxes_charges := chargesTotal data.taxes_or_charges
    match determine_tax_scenario calculated_items_total data.subtotal
        total_taxes_charges data.grand_total with
    | .error e => .error e
    | .ok (final_subtotal, tax_scenario) =>
      .ok ({ data with
              subtotal := final_subtotal,
              taxes_or_charges := calculate_tax_percentages data.taxes_or_charges
                final_subtotal total_taxes_charges tax_scenario },
           { tax_scenario := tax_scenario,
             items_total := calculated_items_total,
             final_subtotal := final_subtotal,
             total_taxes_charges := total_taxes_charges,
             validation_passed := true })

/-! ### Split allocator (`api/routes/split.py`, `calculate_split`) -/

/-- A person participating in the bill split (schema `Participant`). -/
structure SplitParticipant where
  id : String
  name : String
  email : Option String := none
  phone : Option String := none
deriving DecidableEq, Repr

/-- Assignment of an item to participants (schema `ItemAssignment`); the
optional `shares` dictionary is modelled as an association list. -/
structure ItemAssignment where
  item_index : ℤ
  person_ids : List String
  shares : Option (List (String × ℚ)) := none
deriving DecidableEq, Repr

/-- Request for calculating a bill split (schema `SplitCalculationRequest`);
the three distribution modes are strings, compared against `"equal"`. -/
structure SplitRequest where
  receipt_data : Receipt
  participants : List SplitParticipant
  item_assignments : List ItemAssignment
  tax_distribution : String := "proportional"
  service_charge_distribution : String := "proportional"
  discount_distribution : String := "proportional"
deriving DecidableEq, Repr

/-- Keys of the Python dict `{p.id: p for p in request.participants}`:
distinct ids in first-occurrence order. -/
def uniqueIds : List String → List String
  | [] => []
  | x :: xs => x :: (uniqueIds xs).filter (fun y => y ≠ x)

/-- The participant-dict key list of a request. -/
def uids (req : SplitRequest) : List String :=
  uniqueIds (req.participants.map (·.id))

/-- Lookup `participants[pid].name`: a Python dict comprehension keeps the value of
the last occurrence of a duplicated key. -/
def participantName (req : SplitRequest) (pid : String) : String :=
  ((req.participants.filter (fun p => p.id = pid)).getLast?.map (·.name)).getD ""

/-- Access `receipt.items[i]` (guarded by the range check in the code). -/
def itemAt (req : SplitRequest) (i : ℤ) : Item :=
  req.receipt_data.items.getD i.toNat ⟨"", 0, 0, 0⟩

/-- Embedding of `[pid for pid in assignment.person_ids if pid in participants]`. -/
def validIds (req : SplitRequest) (a : ItemAssignment) : List String :=
  a.person_ids.filter (fun pid => pid ∈ req.participants.map (·.id))

/-- The share fraction of `pid` for one assignment: custom weights normalized
by their sum over the valid ids (falling back to an equal split when the
`shares` dict is missing, empty, or sums to ≤ 0). -/
def shareFraction (req : SplitRequest) (a : ItemAssignment) (pid : String) : ℚ :=
  let valid := validIds req a
  match a.shares with
  | some m =>
    if m ≠ [] then
      let total_share := (valid.map (fun q => ((m.lookup q).getD 0))).sum
      if total_share ≤ 0 then 1 / (valid.length : ℚ)
      else ((m.lookup pid).getD 0) / total_share
    else 1 / (valid.length : ℚ)
  | none => 1 / (valid.length : ℚ)

/-- One entry of a participant's `items` list in the response. -/
structure ShareEntry where
  name : String
  quantity : ℤ
  unit_price : ℚ
  total_price : ℚ
  share_fraction : ℚ
  share_amount : ℚ
  shared_with : List String
deriving DecidableEq, Repr

/-- The item-detail record appended for `pid` by one loop iteration. -/
def entryFor (req : SplitRequest) (a : ItemAssignment) (pid : String)
    (item : Item) : ShareEntry :=
  { name := item.name, quantity := item.quantity,
    unit_price := item.unit_price, total_price := item.total_price,
    share_fraction := shareFraction req a pid,
    share_amount := round2 (item.total_price * shareFraction req a pid),
    shared_with :=
      if 1 < (validIds req a).length then
        ((validIds req a).filter (fun p => p ≠ pid)).map (participantName req)
      else [] }

/-- The entries one assignment contributes to `pid`'s item list: nothing if the
index is out of range or no valid ids survive; otherwise one entry per
occurrence of `pid` in the valid id list. -/
def assignEntries (req : SplitRequest) (a : ItemAssignment) (pid : String) :
    List ShareEntry :=
  if 0 ≤ a.item_index ∧ a.item_index < (req.receipt_data.items.length : ℤ) then
    (if validIds req a = [] then []
     else ((validIds req a).filter (fun p => p = pid)).map
        (fun _ => entryFor req a pid (itemAt req a.item_index)))
  else []

/-- Value of `person_data[pid]["items"]` after the assignment loop. -/
def personItems (req : SplitRequest) (pid : String) : List ShareEntry :=
  req.item_assignments.flatMap (fun a => assignEntries req a pid)

/-- Value of `person_data[pid]["subtotal"]` after the assignment loop: the sum of the
accumulated `share_amount`s. -/
def personSubtotal (req : SplitRequest) (pid : String) : ℚ :=
  ((personItems req pid).map (·.share_amount)).sum

/-- Value of `total_subtotal = sum(pd["subtotal"] for pd in person_data.values())`. -/
def totalSubtotal (req : SplitRequest) : ℚ :=
  ((uids req).map (personSubtotal req)).sum

/-- Predicate `startsWithChars n h`: `n` is an initial run of `h`. -/
def startsWithChars : List Char → List Char → Bool
  | [], _ => true
  | _ :: _, [] => false
  | a :: as, b :: bs => a = b && startsWithChars as bs

/-- Python's substring test `needle in hay` on exploded strings. -/
def hasSubstr (needle : List Char) : List Char → Bool
  | [] => needle.isEmpty
  | c :: t => startsWithChars needle (c :: t) || hasSubstr needle t

/-- Python `sub in s` for strings. -/
def pyContains (s sub : String) : Bool := hasSubstr sub.data s.data

/-- Embedding of `"service" in name_lower or "svc" in name_lower`. -/
def serviceName (name : String) : Bool :=
  pyContains name.toLower "service" || pyContains name.toLower "svc"

/-- One iteration of the charge-classification loop over
`(total_tax, total_service_charge, total_discount)`. -/
def bucketStep (acc : ℚ × ℚ × ℚ) (c : Charge) : ℚ × ℚ × ℚ :=
  if c.amount < 0 then (acc.1, acc.2.1, acc.2.2 + |c.amount|)
  else if serviceName c.name then (acc.1, acc.2.1 + c.amount, acc.2.2)
  else (acc.1 + c.amount, acc.2.1, acc.2.2)

/-- The `(total_tax, total_service_charge, total_discount)` bucket totals. -/
def bucketTotals (charges : List Charge) : ℚ × ℚ × ℚ :=
  charges.foldl bucketStep (0, 0, 0)

def taxTotalOf (req : SplitRequest) : ℚ :=
  (bucketTotals req.receipt_data.taxes_or_charges).1

def serviceTotalOf (req : SplitRequest) : ℚ :=
  (bucketTotals req.receipt_data.taxes_or_charges).2.1

def discountTotalOf (req : SplitRequest) : ℚ :=
  (bucketTotals req.receipt_data.taxes_or_charges).2.2

/-- Value of `proportion` for one participant: by subtotal when the overall subtotal is
positive, else `1 / len(participants)`. -/
def proportionOf (req : SplitRequest) (pid : String) : ℚ :=
  if 0 < totalSubtotal req then personSubtotal req pid / totalSubtotal req
  else 1 / ((uids req).length : ℚ)

/-- The unrounded share of one bucket for one participant under the given
distribution mode. -/
def shareOf (req : SplitRequest) (mode : String) (bucketTotal : ℚ)
    (pid : String) : ℚ :=
  if mode = "equal" then bucketTotal / ((uids req).length : ℚ)
  else bucketTotal * proportionOf req pid

/-- Value of `total = subtotal + tax_share + service_share - discount_share`
(computed from the unrounded shares, as in the code). -/
def personTotal (req : SplitRequest) (pid : String) : ℚ :=
  personSubtotal req pid +
    shareOf req req.tax_distribution (taxTotalOf req) pid +
    shareOf req req.service_charge_distribution (serviceTotalOf req) pid -
    shareOf req req.discount_distribution (discountTotalOf req) pid

/-- Split result for a single person (schema `PersonSplitResult`). -/
structure PersonSplitResult where
  person_id : String
  person_name : String
  items : List ShareEntry
  subtotal : ℚ
  tax_share : ℚ
  service_charge_share : ℚ
  discount_share : ℚ
  total : ℚ
deriving DecidableEq, Repr

def personSplitFor (req : SplitRequest) (pid : String) : PersonSplitResult :=
  { person_id := pid,
    person_name := participantName req pid,
    items := personItems req pid,
    subtotal := round2 (personSubtotal req pid),
    tax_share := round2 (shareOf req req.tax_distribution (taxTotalOf req) pid),
    service_charge_share :=
      round2 (shareOf req req.service_charge_distribution (serviceTotalOf req) pid),
    discount_share :=
      round2 (shareOf req req.discount_distribution (discountTotalOf req) pid),
    total := round2 (personTotal req pid) }

/-- Value of `calculated_grand_total = sum(ps.total for ps in person_splits)`. -/
def calculatedGrandTotal (req : SplitRequest) : ℚ :=
  ((uids req).map (fun pid => round2 (personTotal req pid))).sum

/-- The warning tags (the Python code collects warning strings; their message
text is abstracted to constructors carrying the interpolated data). -/
inductive SplitWarning where
  | invalid_item_index (idx : ℤ)
  | no_valid_participants (item_name : String)
  | items_not_assigned (count : ℕ)
  | split_total_mismatch
deriving DecidableEq, Repr

/-- Warnings produced by one iteration of the assignment loop. -/
def assignWarnings (req : SplitRequest) (a : ItemAssignment) : List SplitWarning :=
  if 0 ≤ a.item_index ∧ a.item_index < (req.receipt_data.items.length : ℤ) then
    (if validIds req a = [] then
      [.no_valid_participants (itemAt req a.item_index).name]
     else [])
  else [.invalid_item_index a.item_index]

/-- Contents of `assigned_indices`: indices added by the loop — every in-range
`item_index`, regardless of whether any valid participant id survives. -/
def assignedIdxs (req : SplitRequest) : List ℕ :=
  req.item_assignments.filterMap (fun a =>
    if 0 ≤ a.item_index ∧ a.item_index < (req.receipt_data.items.length : ℤ) then
      some a.item_index.toNat
    else none)

/-- An entry of the `unassigned_items` response list. -/
structure UnassignedEntry where
  index : ℕ
  name : String
  quantity : ℤ
  unit_price : ℚ
  total_price : ℚ
deriving DecidableEq, Repr

/-- Contents of `unassigned_items`: enumerated items whose index was never added to
`assigned_indices`. -/
def unassignedItemsOf (req : SplitRequest) : List UnassignedEntry :=
  (req.receipt_data.items.enum.filter
      (fun p => decide (p.1 ∉ assignedIdxs req))).map
    (fun p => ⟨p.1, p.2.name, p.2.quantity, p.2.unit_price, p.2.total_price⟩)

/-- Contents of `validation_warnings` in loop/append order: per-assignment warnings, then
the unassigned-items warning, then the grand-total drift warning. -/
def warningsOf (req : SplitRequest) : List SplitWarning :=
  req.item_assignments.flatMap (assignWarnings req) ++
  (if unassignedItemsOf req ≠ [] then
    [.items_not_assigned (unassignedItemsOf req).length]
   else []) ++
  (if |calculatedGrandTotal req - req.receipt_data.grand_total| > 5/100 then
    [.split_total_mismatch]
   else [])

/-- Bill totals summary (schema `SplitTotals`). -/
structure SplitTotals where
  items_total : ℚ
  subtotal : ℚ
  total_tax : ℚ
  total_service_charge : ℚ
  total_discount : ℚ
  grand_total : ℚ
deriving DecidableEq, Repr

/-- Response for split calculation (schema `SplitCalculationResponse`). -/
structure SplitResponse where
  success : Bool
  message : String
  person_splits : List PersonSplitResult
  totals : SplitTotals
  unassigned_items : List UnassignedEntry
  validation_warnings : List SplitWarning
deriving DecidableEq, Repr

/-- The error `HTTPException(400)` raised by
the endpoint. -/
inductive SplitError where
  | NoParticipants
deriving DecidableEq, Repr

/-- Embedding of `calculate_split` (POST `/split/calculate`): the stateless split
calculation endpoint. -/
def calculate_split (req : SplitRequest) : Except SplitError SplitResponse :=
  if req.participants = [] then .error .NoParticipants
  else
    .ok { success := true,
          message := "Split calculated successfully",
          person_splits := (uids req).map (personSplitFor req),
          totals :=
            { items_total := round2 (itemsTotal req.receipt_data.items),
              subtotal := round2 req.receipt_data.subtotal,
              total_tax := round2 (taxTotalOf req),
              total_service_charge := round2 (serviceTotalOf req),
              total_discount := round2 (discountTotalOf req),
              grand_total := round2 req.receipt_data.grand_total },
          unassigned_items := unassignedItemsOf req,
          validation_warnings := warningsOf req }

end BillSplitter

namespace BillSplitter

/-! ### Theorems: rounding facts -/

theorem rhe_abs_le (q : ℚ) : |(rhe q : ℚ) - q| ≤ 1/2 := by
  have h0 : (⌊q⌋ : ℚ) ≤ q := Int.floor_le q
  have h1 : q < ⌊q⌋ + 1 := Int.lt_floor_add_one q
  show |((if q - ⌊q⌋ < 1/2 then ⌊q⌋
          else if 1/2 < q - ⌊q⌋ then ⌊q⌋ + 1
          else if Even ⌊q⌋ then ⌊q⌋ else ⌊q⌋ + 1 : ℤ) : ℚ) - q| ≤ 1/2
  split_ifs with h h' h''
  · rw [abs_sub_comm, abs_of_nonneg (by linarith)]
    linarith
  · rw [abs_of_nonneg (by push_cast; linarith)]
    push_cast
    linarith
  · have : q - (⌊q⌋ : ℚ) = 1/2 := le_antisymm (not_lt.mp h') (not_lt.mp h)
    rw [abs_sub_comm, abs_of_nonneg (by linarith)]
    linarith
  · have : q - (⌊q⌋ : ℚ) = 1/2 := le_antisymm (not_lt.mp h') (not_lt.mp h)
    rw [abs_of_nonneg (by push_cast; linarith)]
    push_cast
    linarith

theorem round2_abs_le (q : ℚ) : |round2 q - q| ≤ 1/200 := by
  have h := rhe_abs_le (q * 100)
  unfold round2
  have : (rhe (q * 100) : ℚ) / 100 - q = ((rhe (q * 100) : ℚ) - q * 100) / 100 := by
    ring
  rw [this, abs_div, abs_of_pos (by norm_num : (0:ℚ) < 100)]
  linarith [abs_nonneg ((rhe (q * 100) : ℚ) - q * 100)]

theorem rhe_intCast (n : ℤ) : rhe (n : ℚ) = n := by
  unfold rhe
  rw [Int.floor_intCast]
  simp

/-- Rounding `round2` is the identity on exact multiples of `1/100`. -/
theorem round2_hundredth (n : ℤ) : round2 ((n : ℚ) / 100) = (n : ℚ) / 100 := by
  unfold round2
  rw [div_mul_cancel₀ _ (by norm_num : (100:ℚ) ≠ 0), rhe_intCast]

/-- Rounding `round2` always lands on a multiple of `1/100`. -/
theorem round2_eq_int_div (q : ℚ) : ∃ n : ℤ, round2 q = (n : ℚ) / 100 :=
  ⟨rhe (q * 100), rfl⟩

/-! ### Theorems: normalizer shape lemmas -/

/-- Unfolding of `expandItem` for a multi-quantity item with positive total. -/
theorem expandItem_pos (it : Item) (h1 : 1 < it.quantity) (h2 : 0 < it.total_price) :
    expandItem it =
      List.replicate (it.quantity - 1).toNat
        { name := it.name, quantity := 1,
          unit_price := round2 (it.total_price / (it.quantity : ℚ)),
          total_price := round2 (it.total_price / (it.quantity : ℚ)) } ++
      [{ name := it.name, quantity := 1,
         unit_price := round2 (it.total_price / (it.quantity : ℚ)),
         total_price :=
           (if round2 (it.total_price -
                round2 (round2 (it.total_price / (it.quantity : ℚ)) * ((it.quantity : ℚ) - 1))) < 0
            then round2 (it.total_price / (it.quantity : ℚ))
            else round2 (it.total_price -
                round2 (round2 (it.total_price / (it.quantity : ℚ)) * ((it.quantity : ℚ) - 1)))) }] := by
  have hq0 : (0 : ℤ) < it.quantity := by omega
  have hle : ¬ it.quantity ≤ 1 := by omega
  have hmax : max (it.quantity - 1) 0 = it.quantity - 1 := by omega
  simp only [expandItem, hle, if_false, gt_iff_lt, hq0, if_true, h2, hmax]

/-- Every item produced by `expandItem` has quantity 1. -/
theorem mem_expandItem_quantity (it o : Item) (ho : o ∈ expandItem it) :
    o.quantity = 1 := by
  unfold expandItem at ho
  split_ifs at ho <;>
  first
    | (simp only [List.mem_singleton] at ho; subst ho; rfl)
    | (simp only [List.mem_append, List.mem_replicate, List.mem_singleton] at ho
       rcases ho with ⟨-, ho⟩ | ho <;> (subst ho; rfl))

/-- Expansion `expandItem` is the identity (as a singleton) on unit-quantity items. -/
theorem expandItem_of_unit (it : Item) (h : it.quantity = 1) : expandItem it = [it] := by
  obtain ⟨n, q, u, t⟩ := it
  simp only at h
  subst h
  simp [expandItem]

theorem flatMap_expandItem_eq_self (l : List Item)
    (h : ∀ o ∈ l, expandItem o = [o]) : l.flatMap expandItem = l := by
  induction l with
  | nil => rfl
  | cons a t ih =>
    rw [List.flatMap_cons, h a (List.mem_cons_self a t),
      ih (fun o ho => h o (List.mem_cons_of_mem a ho))]
    rfl

/-- The per-item expansion described by spec §4.1 for quantity N > 1 and
positive total, with the final item's negative-remainder fallback amended to
what the code does (`perUnitTotal` instead of clamping at 0). -/
def specExpandPos (it : Item) : List Item :=
  let p := round2 (it.total_price / (it.quantity : ℚ))
  let r := round2 (it.total_price - round2 (p * ((it.quantity : ℚ) - 1)))
  List.replicate (it.quantity - 1).toNat
    { name := it.name, quantity := 1, unit_price := p, total_price := p } ++
  [{ name := it.name, quantity := 1, unit_price := p,
     total_price := if r < 0 then p else r }]

/-- One expansion step keeps the item's money within a cent whenever the item
is `goodItem`. -/
theorem expandItem_sum_good (it : Item) (h : goodItem it) :
    |itemsTotal (expandItem it) - it.total_price| ≤ 1/100 := by
  rcases h with h1 | ⟨h1, h2, h3⟩
  · rw [expandItem_of_unit it h1]
    simp [itemsTotal]
  · rw [expandItem_pos it h1 h2]
    set p := round2 (it.total_price / (it.quantity : ℚ)) with hp
    have hacc : round2 (p * ((it.quantity : ℚ) - 1)) = p * ((it.quantity : ℚ) - 1) := by
      obtain ⟨n, hn⟩ := round2_eq_int_div (it.total_price / (it.quantity : ℚ))
      rw [hp, hn]
      have he : (n : ℚ)/100 * ((it.quantity : ℚ) - 1) =
          ((n * (it.quantity - 1) : ℤ) : ℚ) / 100 := by
        push_cast
        ring
      rw [he, round2_hundredth]
    have hnotlt : ¬ (round2 (it.total_price -
        round2 (p * ((it.quantity : ℚ) - 1))) < 0) := not_lt.mpr h3
    rw [if_neg hnotlt, hacc]
    simp only [itemsTotal, List.map_append, List.sum_append, List.map_replicate,
      List.sum_replicate, List.map_cons, List.map_nil, List.sum_cons, List.sum_nil]
    have hq : (((it.quantity - 1).toNat : ℚ)) = (it.quantity : ℚ) - 1 := by
      have hz : ((it.quantity - 1).toNat : ℤ) = it.quantity - 1 :=
        Int.toNat_of_nonneg (by omega)
      exact_mod_cast congrArg (fun z : ℤ => (z : ℚ)) hz
    rw [nsmul_eq_mul, hq]
    have hb := round2_abs_le (it.total_price - p * ((it.quantity : ℚ) - 1))
    have he : ((it.quantity : ℚ) - 1) * p +
        (round2 (it.total_price - p * ((it.quantity : ℚ) - 1)) + 0) - it.total_price =
        round2 (it.total_price - p * ((it.quantity : ℚ) - 1)) -
          (it.total_price - p * ((it.quantity : ℚ) - 1)) := by
      ring
    rw [he]
    linarith [hb]

/-- C3 (amended): for an item with quantity N > 1 and positive total,
`expandItem` emits exactly N items — N−1 at
`perUnitTotal = round(totalPrice/N, 2)` (as unit price and total), and a final
item whose total is `round(totalPrice − perUnitTotal×(N−1), 2)` when that
remainder is nonnegative, and `perUnitTotal` (not 0) otherwise. -/
theorem C3_expand_multi_quantity (it : Item)
    (h1 : 1 < it.quantity) (h2 : 0 < it.total_price) :
    (expandItem it).length = it.quantity.toNat ∧
    expandItem it = specExpandPos it := by
  constructor
  · rw [expandItem_pos it h1 h2]
    simp only [List.length_append, List.length_replicate, List.length_singleton]
    omega
  · rw [expandItem_pos it h1 h2]
    rfl

theorem C3_expand_multi_quantity_witness :
    1 < (Item.mk "a" 3 (333/100) 10).quantity ∧
    0 < (Item.mk "a" 3 (333/100) 10).total_price ∧
    ((expandItem (Item.mk "a" 3 (333/100) 10)).length =
        (Item.mk "a" 3 (333/100) 10).quantity.toNat ∧
      expandItem (Item.mk "a" 3 (333/100) 10) =
        specExpandPos (Item.mk "a" 3 (333/100) 10)) :=
  ⟨by norm_num, by norm_num,
    C3_expand_multi_quantity (Item.mk "a" 3 (333/100) 10) (by norm_num) (by norm_num)⟩

/-- C3 counterexample: for the item (quantity 10, totalPrice 0.16) the
claim predicts a final totalPrice of `max(round(0.16 − 0.02×9, 2), 0) = 0`,
but the code emits `perUnitTotal = 0.02` for the final item. -/
theorem C3_counterexample :
    expand_items_to_unit_quantity [Item.mk "x" 10 0 (16/100)] =
      List.replicate 10 (Item.mk "x" 1 (2/100) (2/100)) ∧
    round2 ((16:ℚ)/100 / 10) = 2/100 ∧
    max (round2 ((16:ℚ)/100 - round2 ((2:ℚ)/100 * (10 - 1)))) 0 = 0 ∧
    (Item.mk "x" 1 (2/100) (2/100)).total_price ≠ 0 := by
  refine ⟨?_, ?_, ?_, by norm_num⟩
  · show (expandItem (Item.mk "x" 10 0 (16/100))) ++ [].flatMap expandItem =
      List.replicate 10 (Item.mk "x" 1 (2/100) (2/100))
    norm_num [expandItem, round2, rhe]
    rw [show Int.toNat 9 = 9 from rfl, ← List.replicate_succ']
  · norm_num [round2, rhe]
  · norm_num [round2, rhe]

/-- C8 (confirmed): every output of the normalizer has quantity 1, and
normalizing a second time returns the same list. -/
theorem C8_normalize_idempotent (items : List Item) :
    (∀ o ∈ expand_items_to_unit_quantity items, o.quantity = 1) ∧
    expand_items_to_unit_quantity (expand_items_to_unit_quantity items) =
      expand_items_to_unit_quantity items := by
  have hq : ∀ o ∈ expand_items_to_unit_quantity items, o.quantity = 1 := by
    intro o ho
    rw [expand_items_to_unit_quantity, List.mem_flatMap] at ho
    obtain ⟨a, -, hoa⟩ := ho
    exact mem_expandItem_quantity a o hoa
  exact ⟨hq, flatMap_expandItem_eq_self _ (fun o ho => expandItem_of_unit o (hq o ho))⟩

/-- C7 (amended): the normalizer preserves the total within
`0.01 × (number of input items)` provided every input item is a `goodItem`
(quantity 1, or quantity > 1 with positive total and nonnegative rounding
remainder for the final unit). -/
theorem C7_sum_preservation (items : List Item)
    (h : ∀ it ∈ items, goodItem it) :
    |itemsTotal (expand_items_to_unit_quantity items) - itemsTotal items| ≤
      (items.length : ℚ) * (1/100) := by
  induction items with
  | nil => simp [expand_items_to_unit_quantity, itemsTotal]
  | cons a l ih =>
    have ha := expandItem_sum_good a (h a (List.mem_cons_self a l))
    have hl := ih (fun it hit => h it (List.mem_cons_of_mem a hit))
    have hsplit : itemsTotal (expand_items_to_unit_quantity (a :: l)) =
        itemsTotal (expandItem a) + itemsTotal (expand_items_to_unit_quantity l) := by
      simp [expand_items_to_unit_quantity, itemsTotal]
    have hcons : itemsTotal (a :: l) = a.total_price + itemsTotal l := by
      simp [itemsTotal]
    have hlen : ((a :: l).length : ℚ) = (l.length : ℚ) + 1 := by
      push_cast [List.length_cons]
      ring
    rw [hsplit, hcons, hlen]
    calc |itemsTotal (expandItem a) + itemsTotal (expand_items_to_unit_quantity l) -
            (a.total_price + itemsTotal l)|
        = |(itemsTotal (expandItem a) - a.total_price) +
            (itemsTotal (expand_items_to_unit_quantity l) - itemsTotal l)| := by
          ring_nf
      _ ≤ |itemsTotal (expandItem a) - a.total_price| +
            |itemsTotal (expand_items_to_unit_quantity l) - itemsTotal l| :=
          abs_add _ _
      _ ≤ 1/100 + (l.length : ℚ) * (1/100) := by linarith
      _ = ((l.length : ℚ) + 1) * (1/100) := by ring

theorem C7_sum_preservation_witness :
    (∀ it ∈ [Item.mk "a" 2 5 10], goodItem it) ∧
    |itemsTotal (expand_items_to_unit_quantity [Item.mk "a" 2 5 10]) -
        itemsTotal [Item.mk "a" 2 5 10]| ≤
      (([Item.mk "a" 2 5 10] : List Item).length : ℚ) * (1/100) :=
  ⟨by
    intro it hit
    simp only [List.mem_singleton] at hit
    subst hit
    right
    refine ⟨by norm_num, by norm_num, ?_⟩
    norm_num [round2, rhe],
   C7_sum_preservation [Item.mk "a" 2 5 10] (by
    intro it hit
    simp only [List.mem_singleton] at hit
    subst hit
    right
    refine ⟨by norm_num, by norm_num, ?_⟩
    norm_num [round2, rhe])⟩

/-- C7 counterexample: for the two-item list
`[{qty 0, unit 5, total 0}, {qty 10, unit 0, total 0.16}]` the normalized sum
is 5.20 while the input sum is 0.16 — far beyond the 0.02 budget the claim
allows for every list. -/
theorem C7_counterexample :
    ¬ |itemsTotal (expand_items_to_unit_quantity
          [Item.mk "a" 0 5 0, Item.mk "x" 10 0 (16/100)]) -
        itemsTotal [Item.mk "a" 0 5 0, Item.mk "x" 10 0 (16/100)]| ≤
      (([Item.mk "a" 0 5 0, Item.mk "x" 10 0 (16/100)] : List Item).length : ℚ) *
        (1/100) := by
  have he : expand_items_to_unit_quantity
      [Item.mk "a" 0 5 0, Item.mk "x" 10 0 (16/100)] =
      Item.mk "a" 1 5 5 :: List.replicate 10 (Item.mk "x" 1 (2/100) (2/100)) := by
    show expandItem (Item.mk "a" 0 5 0) ++
        (expandItem (Item.mk "x" 10 0 (16/100)) ++ [].flatMap expandItem) =
      Item.mk "a" 1 5 5 :: List.replicate 10 (Item.mk "x" 1 (2/100) (2/100))
    norm_num [expandItem, round2, rhe]
    rw [show Int.toNat 9 = 9 from rfl, ← List.replicate_succ']
  rw [he]
  norm_num [itemsTotal, List.map_replicate, List.sum_replicate]
  rw [show |((126:ℚ)/25)| = 126/25 from abs_of_pos (by norm_num)]
  norm_num

/-! ### Theorems: receipt reconciler -/

/-- With a positive grand total, the validator fails with exactly the errors
of `_determine_tax_scenario`. -/
theorem validate_error_iff (r : Receipt) (hg : 0 < r.grand_total) (e : ReconError) :
    validate_and_process_receipt r = .error e ↔
      determine_tax_scenario (itemsTotal r.items) r.subtotal
        (chargesTotal r.taxes_or_charges) r.grand_total = .error e := by
  unfold validate_and_process_receipt
  rw [if_neg (not_le.mpr hg)]
  cases hd : determine_tax_scenario (itemsTotal r.items) r.subtotal
      (chargesTotal r.taxes_or_charges) r.grand_total with
  | error e' => simp [hd]
  | ok p =>
    obtain ⟨fs, sc⟩ := p
    simp [hd]

/-- With a positive grand total, a successful scenario determination makes the
validator return the updated record. -/
theorem validate_eq_ok (r : Receipt) (hg : 0 < r.grand_total) (fs : ℚ)
    (sc : TaxScenario)
    (hd : determine_tax_scenario (itemsTotal r.items) r.subtotal
        (chargesTotal r.taxes_or_charges) r.grand_total = .ok (fs, sc)) :
    validate_and_process_receipt r =
      .ok ({ r with
              subtotal := fs,
              taxes_or_charges := calculate_tax_percentages r.taxes_or_charges
                fs (chargesTotal r.taxes_or_charges) sc },
           { tax_scenario := sc, items_total := itemsTotal r.items,
             final_subtotal := fs,
             total_taxes_charges := chargesTotal r.taxes_or_charges,
             validation_passed := true }) := by
  unfold validate_and_process_receipt
  rw [if_neg (not_le.mpr hg)]
  simp [hd]

/-- In the provided-subtotal branch, `ItemsSubtotalMismatch` is raised exactly
when the items total misses the provided subtotal by more than `0.01`. -/
theorem dts_items_subtotal (iT pS tC gT : ℚ) (hs : 1/100 < pS) :
    determine_tax_scenario iT pS tC gT = .error .ItemsSubtotalMismatch ↔
      1/100 < |iT - pS| := by
  unfold determine_tax_scenario
  rw [if_pos (show pS > 1/100 from hs)]
  by_cases h1 : |iT - pS| > 1/100
  · rw [if_pos h1]
    simpa using h1
  · rw [if_neg h1]
    constructor
    · intro hcontra
      split_ifs at hcontra
      simp at hcontra
    · intro hr
      exact absurd hr h1

/-- C1 (amended): for a receipt with positive grand total and an explicitly
provided subtotal, reconciliation raises `ItemsSubtotalMismatch` iff
`|itemsTotal − providedSubtotal| > 0.01` — the code's tolerance is `0.01`, not
the spec's `ε = 0.05`. -/
theorem C1_items_subtotal_mismatch (r : Receipt)
    (hg : 0 < r.grand_total) (hs : 1/100 < r.subtotal) :
    validate_and_process_receipt r = .error .ItemsSubtotalMismatch ↔
      1/100 < |itemsTotal r.items - r.subtotal| := by
  rw [validate_error_iff r hg, dts_items_subtotal _ _ _ _ hs]

theorem C1_items_subtotal_mismatch_witness :
    (0 < (Receipt.mk [Item.mk "a" 1 10 (1003/100)] 10 [] 10).grand_total) ∧
    (1/100 < (Receipt.mk [Item.mk "a" 1 10 (1003/100)] 10 [] 10).subtotal) ∧
    (validate_and_process_receipt (Receipt.mk [Item.mk "a" 1 10 (1003/100)] 10 [] 10) =
        .error .ItemsSubtotalMismatch ↔
      1/100 < |itemsTotal (Receipt.mk [Item.mk "a" 1 10 (1003/100)] 10 [] 10).items -
        (Receipt.mk [Item.mk "a" 1 10 (1003/100)] 10 [] 10).subtotal|) :=
  ⟨by norm_num, by norm_num,
    C1_items_subtotal_mismatch (Receipt.mk [Item.mk "a" 1 10 (1003/100)] 10 [] 10)
      (by norm_num) (by norm_num)⟩

/-- C1 counterexample: a receipt whose items total misses the provided
subtotal by `0.03` — within the claim's `ε = 0.05` tolerance, so the claim says
the check passes — is rejected by the code with `ItemsSubtotalMismatch`. -/
theorem C1_counterexample :
    validate_and_process_receipt
        (Receipt.mk [Item.mk "a" 1 10 (1003/100)] 10 [] 10) =
      .error .ItemsSubtotalMismatch ∧
    |itemsTotal [Item.mk "a" 1 10 (1003/100)] - (10:ℚ)| ≤ 5/100 ∧
    (0:ℚ) < 10 ∧ (1/100 : ℚ) < 10 := by
  have hit : itemsTotal [Item.mk "a" 1 10 (1003/100)] = 1003/100 := by
    norm_num [itemsTotal]
  have habs : |itemsTotal [Item.mk "a" 1 10 (1003/100)] - (10:ℚ)| = 3/100 := by
    rw [hit, show (1003:ℚ)/100 - 10 = 3/100 by norm_num,
      abs_of_pos (by norm_num : (0:ℚ) < 3/100)]
  refine ⟨?_, by rw [habs]; norm_num, by norm_num, by norm_num⟩
  rw [validate_error_iff _ (by norm_num), dts_items_subtotal _ _ _ _ (by norm_num)]
  show (1:ℚ)/100 < |itemsTotal [Item.mk "a" 1 10 (1003/100)] - (10:ℚ)|
  rw [habs]
  norm_num

/-- Scenario-2 (no stated subtotal), zero-charges branch. -/
theorem dts_no_taxes (iT pS tC gT : ℚ) (hs : ¬ 1/100 < pS) (hc : tC = 0)
    (h : |iT - gT| ≤ 1/100) :
    determine_tax_scenario iT pS tC gT = .ok (gT, .no_taxes) := by
  unfold determine_tax_scenario
  rw [if_neg (show ¬ pS > 1/100 from hs), if_pos hc, if_pos h]

/-- Scenario-2 (no stated subtotal, nonzero charges), tax-inclusive branch. -/
theorem dts_inclusive (iT pS tC gT : ℚ) (hs : ¬ 1/100 < pS) (hc : tC ≠ 0)
    (h : |iT - gT| ≤ 1/100) :
    determine_tax_scenario iT pS tC gT = .ok (gT, .tax_inclusive) := by
  unfold determine_tax_scenario
  rw [if_neg (show ¬ pS > 1/100 from hs), if_neg hc, if_pos h]

/-- Scenario-2, tax-exclusive branch. -/
theorem dts_exclusive (iT pS tC gT : ℚ) (hs : ¬ 1/100 < pS) (hc : tC ≠ 0)
    (h1 : ¬ |iT - gT| ≤ 1/100) (h2 : |iT - (gT - tC)| ≤ 1/100)
    (h3 : 0 ≤ gT - tC) :
    determine_tax_scenario iT pS tC gT = .ok (gT - tC, .tax_exclusive) := by
  unfold determine_tax_scenario
  rw [if_neg (show ¬ pS > 1/100 from hs), if_neg hc, if_neg h1,
    if_pos (show |iT - (gT - tC)| ≤ 1/100 ∧ gT - tC ≥ 0 from ⟨h2, h3⟩)]

/-- Scenario-2, ambiguous branch. -/
theorem dts_ambiguous (iT pS tC gT : ℚ) (hs : ¬ 1/100 < pS) (hc : tC ≠ 0)
    (h1 : ¬ |iT - gT| ≤ 1/100)
    (h2 : ¬ (|iT - (gT - tC)| ≤ 1/100 ∧ 0 ≤ gT - tC)) :
    determine_tax_scenario iT pS tC gT = .error .AmbiguousTotals := by
  unfold determine_tax_scenario
  rw [if_neg (show ¬ pS > 1/100 from hs), if_neg hc, if_neg h1,
    if_neg (show ¬ (|iT - (gT - tC)| ≤ 1/100 ∧ gT - tC ≥ 0) from h2)]

/-- C2 (amended): for a receipt with positive grand total, unstated
subtotal and nonzero charges total, the reconciler prefers the tax-inclusive
hypothesis (resolved subtotal = grand total) whenever it matches within the
code's tolerance `0.01`; otherwise uses the tax-exclusive hypothesis
(resolved subtotal = grandTotal − chargesTotal, required nonnegative); else
raises `AmbiguousTotals`.  The claim's `ε = 0.05` is corrected to `0.01`. -/
theorem C2_scenario_preference (r : Receipt)
    (hg : 0 < r.grand_total) (hs : ¬ 1/100 < r.subtotal)
    (hc : chargesTotal r.taxes_or_charges ≠ 0) :
    (|itemsTotal r.items - r.grand_total| ≤ 1/100 →
      ∃ p, validate_and_process_receipt r = .ok p ∧
        p.1.subtotal = r.grand_total ∧ p.2.tax_scenario = .tax_inclusive) ∧
    (¬ |itemsTotal r.items - r.grand_total| ≤ 1/100 →
      |itemsTotal r.items - (r.grand_total - chargesTotal r.taxes_or_charges)| ≤ 1/100 →
      0 ≤ r.grand_total - chargesTotal r.taxes_or_charges →
      ∃ p, validate_and_process_receipt r = .ok p ∧
        p.1.subtotal = r.grand_total - chargesTotal r.taxes_or_charges ∧
        p.2.tax_scenario = .tax_exclusive) ∧
    (¬ |itemsTotal r.items - r.grand_total| ≤ 1/100 →
      ¬ (|itemsTotal r.items - (r.grand_total - chargesTotal r.taxes_or_charges)| ≤ 1/100 ∧
          0 ≤ r.grand_total - chargesTotal r.taxes_or_charges) →
      validate_and_process_receipt r = .error .AmbiguousTotals) := by
  refine ⟨fun h1 => ?_, fun h1 h2 h3 => ?_, fun h1 h2 => ?_⟩
  · exact ⟨_, validate_eq_ok r hg _ _ (dts_inclusive _ _ _ _ hs hc h1), rfl, rfl⟩
  · exact ⟨_, validate_eq_ok r hg _ _ (dts_exclusive _ _ _ _ hs hc h1 h2 h3), rfl, rfl⟩
  · exact (validate_error_iff r hg _).mpr (dts_ambiguous _ _ _ _ hs hc h1 h2)

theorem C2_scenario_preference_witness :
    (0 < (Receipt.mk [Item.mk "a" 1 11 11] 0 [Charge.mk "tax" 1 none] 11).grand_total) ∧
    (¬ 1/100 < (Receipt.mk [Item.mk "a" 1 11 11] 0 [Charge.mk "tax" 1 none] 11).subtotal) ∧
    (chargesTotal (Receipt.mk [Item.mk "a" 1 11 11] 0
        [Charge.mk "tax" 1 none] 11).taxes_or_charges ≠ 0) ∧
    ((|itemsTotal (Receipt.mk [Item.mk "a" 1 11 11] 0 [Charge.mk "tax" 1 none] 11).items -
        (Receipt.mk [Item.mk "a" 1 11 11] 0 [Charge.mk "tax" 1 none] 11).grand_total| ≤ 1/100 →
      ∃ p, validate_and_process_receipt
          (Receipt.mk [Item.mk "a" 1 11 11] 0 [Charge.mk "tax" 1 none] 11) = .ok p ∧
        p.1.subtotal = (Receipt.mk [Item.mk "a" 1 11 11] 0 [Charge.mk "tax" 1 none] 11).grand_total ∧
        p.2.tax_scenario = .tax_inclusive) ∧
    (¬ |itemsTotal (Receipt.mk [Item.mk "a" 1 11 11] 0 [Charge.mk "tax" 1 none] 11).items -
        (Receipt.mk [Item.mk "a" 1 11 11] 0 [Charge.mk "tax" 1 none] 11).grand_total| ≤ 1/100 →
      |itemsTotal (Receipt.mk [Item.mk "a" 1 11 11] 0 [Charge.mk "tax" 1 none] 11).items -
        ((Receipt.mk [Item.mk "a" 1 11 11] 0 [Charge.mk "tax" 1 none] 11).grand_total -
          chargesTotal (Receipt.mk [Item.mk "a" 1 11 11] 0 [Charge.mk "tax" 1 none] 11).taxes_or_charges)| ≤ 1/100 →
      0 ≤ (Receipt.mk [Item.mk "a" 1 11 11] 0 [Charge.mk "tax" 1 none] 11).grand_total -
        chargesTotal (Receipt.mk [Item.mk "a" 1 11 11] 0 [Charge.mk "tax" 1 none] 11).taxes_or_charges →
      ∃ p, validate_and_process_receipt
          (Receipt.mk [Item.mk "a" 1 11 11] 0 [Charge.mk "tax" 1 none] 11) = .ok p ∧
        p.1.subtotal = (Receipt.mk [Item.mk "a" 1 11 11] 0 [Charge.mk "tax" 1 none] 11).grand_total -
          chargesTotal (Receipt.mk [Item.mk "a" 1 11 11] 0 [Charge.mk "tax" 1 none] 11).taxes_or_charges ∧
        p.2.tax_scenario = .tax_exclusive) ∧
    (¬ |itemsTotal (Receipt.mk [Item.mk "a" 1 11 11] 0 [Charge.mk "tax" 1 none] 11).items -
        (Receipt.mk [Item.mk "a" 1 11 11] 0 [Charge.mk "tax" 1 none] 11).grand_total| ≤ 1/100 →
      ¬ (|itemsTotal (Receipt.mk [Item.mk "a" 1 11 11] 0 [Charge.mk "tax" 1 none] 11).items -
          ((Receipt.mk [Item.mk "a" 1 11 11] 0 [Charge.mk "tax" 1 none] 11).grand_total -
            chargesTotal (Receipt.mk [Item.mk "a" 1 11 11] 0 [Charge.mk "tax" 1 none] 11).taxes_or_charges)| ≤ 1/100 ∧
          0 ≤ (Receipt.mk [Item.mk "a" 1 11 11] 0 [Charge.mk "tax" 1 none] 11).grand_total -
            chargesTotal (Receipt.mk [Item.mk "a" 1 11 11] 0 [Charge.mk "tax" 1 none] 11).taxes_or_charges) →
      validate_and_process_receipt
          (Receipt.mk [Item.mk "a" 1 11 11] 0 [Charge.mk "tax" 1 none] 11) =
        .error .AmbiguousTotals)) :=
  ⟨by norm_num, by norm_num, by norm_num [chargesTotal],
    C2_scenario_preference (Receipt.mk [Item.mk "a" 1 11 11] 0 [Charge.mk "tax" 1 none] 11)
      (by norm_num) (by norm_num) (by norm_num [chargesTotal])⟩

/-- C2 counterexample: with items 9.97, no stated subtotal, charges 0.06
and grand total 10, *both* spec hypotheses match within `ε = 0.05`
(differences 0.03 each), so the claim demands scenario TaxInclusive — but the
code (tolerance 0.01) raises `AmbiguousTotals`. -/
theorem C2_counterexample :
    validate_and_process_receipt
        (Receipt.mk [Item.mk "a" 1 (997/100) (997/100)] 0
          [Charge.mk "tax" (6/100) none] 10) = .error .AmbiguousTotals ∧
    |itemsTotal [Item.mk "a" 1 (997/100) (997/100)] - (10:ℚ)| ≤ 5/100 ∧
    |itemsTotal [Item.mk "a" 1 (997/100) (997/100)] - ((10:ℚ) - 6/100)| ≤ 5/100 ∧
    (0:ℚ) ≤ 10 - 6/100 ∧ ((6:ℚ)/100 ≠ 0) ∧ ¬ ((1:ℚ)/100 < 0) ∧ (0:ℚ) < 10 := by
  have hit : itemsTotal [Item.mk "a" 1 (997/100) (997/100)] = 997/100 := by
    norm_num [itemsTotal]
  have h1 : |itemsTotal [Item.mk "a" 1 (997/100) (997/100)] - (10:ℚ)| = 3/100 := by
    rw [hit, show (997:ℚ)/100 - 10 = -(3/100) by norm_num, abs_neg,
      abs_of_pos (by norm_num : (0:ℚ) < 3/100)]
  have h2 : |itemsTotal [Item.mk "a" 1 (997/100) (997/100)] - ((10:ℚ) - 6/100)| = 3/100 := by
    rw [hit, show (997:ℚ)/100 - (10 - 6/100) = 3/100 by norm_num,
      abs_of_pos (by norm_num : (0:ℚ) < 3/100)]
  refine ⟨?_, by rw [h1]; norm_num, by rw [h2]; norm_num, by norm_num, by norm_num,
    by norm_num, by norm_num⟩
  rw [validate_error_iff _ (by norm_num)]
  have hct : chargesTotal [Charge.mk "tax" (6/100) none] = 6/100 := by
    norm_num [chargesTotal]
  show determine_tax_scenario (itemsTotal [Item.mk "a" 1 (997/100) (997/100)]) 0
      (chargesTotal [Charge.mk "tax" (6/100) none]) 10 = .error .AmbiguousTotals
  rw [hct]
  refine dts_ambiguous _ _ _ _ (by norm_num) (by norm_num) ?_ ?_
  · rw [h1]
    norm_num
  · rw [h2]
    norm_num

/-- Percentage annotation of an empty charge list is empty. -/
theorem ctp_nil (fs tc : ℚ) (sc : TaxScenario) :
    calculate_tax_percentages [] fs tc sc = [] := by
  unfold calculate_tax_percentages
  split_ifs <;> rfl

/-- Evaluation of the validator on the concrete no-taxes receipt
`{items = [1 × 10.00], subtotal = 0 (unstated), charges = [], grand = 10}`. -/
theorem validate_example_eval :
    validate_and_process_receipt (Receipt.mk [Item.mk "a" 1 10 10] 0 [] 10) =
      .ok (Receipt.mk [Item.mk "a" 1 10 10] 10 [] 10,
           ValidationInfo.mk .no_taxes 10 10 0 true) := by
  have hit : itemsTotal [Item.mk "a" 1 10 10] = 10 := by norm_num [itemsTotal]
  have hct : chargesTotal ([] : List Charge) = 0 := rfl
  have hd : determine_tax_scenario (itemsTotal [Item.mk "a" 1 10 10]) 0
      (chargesTotal ([] : List Charge)) 10 = .ok (10, .no_taxes) := by
    rw [hit, hct]
    exact dts_no_taxes _ _ _ _ (by norm_num) rfl (by norm_num)
  have h := validate_eq_ok (Receipt.mk [Item.mk "a" 1 10 10] 0 [] 10)
    (by norm_num) 10 .no_taxes hd
  rw [h]
  rw [show (Receipt.mk [Item.mk "a" 1 10 10] 0 [] 10).taxes_or_charges =
    ([] : List Charge) from rfl, ctp_nil, hit, hct]

/-- Percentage annotation only rewrites the `percent` field. -/
theorem ctp_preserves_name_amount (cs : List Charge) (fs tc : ℚ) (sc : TaxScenario) :
    (calculate_tax_percentages cs fs tc sc).map (fun c => (c.name, c.amount)) =
      cs.map (fun c => (c.name, c.amount)) := by
  unfold calculate_tax_percentages
  split_ifs <;> first
    | rfl
    | (rw [List.map_map]; rfl)

/-- C9 (amended): on success the validator returns the input record with
only `subtotal` overwritten (set to the resolved subtotal) and the charges'
`percent` fields recomputed — items, grand total and the charges' names and
amounts are unchanged.  (The Python code performs exactly this as an in-place
mutation of the `data` dictionary it was given, so the input is *not* left
unchanged as the claim states.) -/
theorem C9_validator_frame (r : Receipt) (p : Receipt × ValidationInfo)
    (h : validate_and_process_receipt r = .ok p) :
    p.1.items = r.items ∧ p.1.grand_total = r.grand_total ∧
    p.1.subtotal = p.2.final_subtotal ∧
    p.1.taxes_or_charges.map (fun c => (c.name, c.amount)) =
      r.taxes_or_charges.map (fun c => (c.name, c.amount)) := by
  by_cases hg : r.grand_total ≤ 0
  · unfold validate_and_process_receipt at h
    rw [if_pos hg] at h
    exact absurd h (by simp)
  · push_neg at hg
    rcases hd : determine_tax_scenario (itemsTotal r.items) r.subtotal
        (chargesTotal r.taxes_or_charges) r.grand_total with e | ⟨fs, sc⟩
    · rw [(validate_error_iff r hg e).mpr hd] at h
      exact absurd h (by simp)
    · rw [validate_eq_ok r hg fs sc hd] at h
      simp only [Except.ok.injEq] at h
      subst h
      exact ⟨rfl, rfl, rfl, ctp_preserves_name_amount _ _ _ _⟩

theorem C9_validator_frame_witness :
    (validate_and_process_receipt (Receipt.mk [Item.mk "a" 1 10 10] 0 [] 10) =
      .ok (Receipt.mk [Item.mk "a" 1 10 10] 10 [] 10,
           ValidationInfo.mk .no_taxes 10 10 0 true)) ∧
    ((Receipt.mk [Item.mk "a" 1 10 10] 10 [] 10).items =
        (Receipt.mk [Item.mk "a" 1 10 10] 0 [] 10).items ∧
      (Receipt.mk [Item.mk "a" 1 10 10] 10 [] 10).grand_total =
        (Receipt.mk [Item.mk "a" 1 10 10] 0 [] 10).grand_total ∧
      (Receipt.mk [Item.mk "a" 1 10 10] 10 [] 10).subtotal =
        (ValidationInfo.mk .no_taxes 10 10 0 true).final_subtotal ∧
      (Receipt.mk [Item.mk "a" 1 10 10] 10 [] 10).taxes_or_charges.map
          (fun c => (c.name, c.amount)) =
        (Receipt.mk [Item.mk "a" 1 10 10] 0 [] 10).taxes_or_charges.map
          (fun c => (c.name, c.amount))) :=
  ⟨validate_example_eval, C9_validator_frame _ _ validate_example_eval⟩

/-- C9 counterexample: reconciliation of a receipt with unstated subtotal
(0) resolves the subtotal to the grand total (10): the `subtotal` field of the
processed record differs from the input's — the record is updated (mutated in
place by the Python code), contradicting the claim that the input's subtotal
is unchanged. -/
theorem C9_counterexample :
    (validate_and_process_receipt (Receipt.mk [Item.mk "a" 1 10 10] 0 [] 10)).toOption.map
        (fun p => p.1.subtotal) = some 10 ∧
    (Receipt.mk [Item.mk "a" 1 10 10] 0 [] 10).subtotal = 0 ∧ (10:ℚ) ≠ 0 := by
  refine ⟨?_, rfl, by norm_num⟩
  rw [validate_example_eval]
  rfl

/-! ### Theorems: split allocator -/

/-- A nonempty participant list yields a nonempty key list. -/
theorem uids_ne_nil (req : SplitRequest) (h : req.participants ≠ []) :
    uids req ≠ [] := by
  cases hp : req.participants with
  | nil => exact absurd hp h
  | cons a l => simp [uids, hp, uniqueIds]

/-- The `.ok` branch of `calculate_split` spelled out. -/
theorem calculate_split_ok (req : SplitRequest) (h : req.participants ≠ []) :
    calculate_split req =
      .ok { success := true,
            message := "Split calculated successfully",
            person_splits := (uids req).map (personSplitFor req),
            totals :=
              { items_total := round2 (itemsTotal req.receipt_data.items),
                subtotal := round2 req.receipt_data.subtotal,
                total_tax := round2 (taxTotalOf req),
                total_service_charge := round2 (serviceTotalOf req),
                total_discount := round2 (discountTotalOf req),
                grand_total := round2 req.receipt_data.grand_total },
            unassigned_items := unassignedItemsOf req,
            validation_warnings := warningsOf req } := by
  unfold calculate_split
  rw [if_neg h]

/-- C5 (confirmed): with at least one participant the allocator always
returns a successful response; when the rounded per-person totals drift from
the receipt's grand total by more than `0.05`, a non-fatal warning is appended
— no error is ever raised for this condition. -/
theorem C5_post_check_never_fails (req : SplitRequest)
    (h : req.participants ≠ []) :
    ∃ resp, calculate_split req = .ok resp ∧ resp.success = true ∧
      (5/100 < |calculatedGrandTotal req - req.receipt_data.grand_total| →
        SplitWarning.split_total_mismatch ∈ resp.validation_warnings) := by
  refine ⟨_, calculate_split_ok req h, rfl, fun hd => ?_⟩
  show SplitWarning.split_total_mismatch ∈ warningsOf req
  unfold warningsOf
  refine List.mem_append.mpr (Or.inr ?_)
  rw [if_pos hd]
  exact List.mem_singleton.mpr rfl

theorem C5_post_check_never_fails_witness :
    ((SplitRequest.mk (Receipt.mk [] 0 [] 0)
        [SplitParticipant.mk "p" "P" none none] [] "proportional" "proportional"
        "proportional").participants ≠ []) ∧
    (∃ resp, calculate_split (SplitRequest.mk (Receipt.mk [] 0 [] 0)
        [SplitParticipant.mk "p" "P" none none] [] "proportional" "proportional"
        "proportional") = .ok resp ∧ resp.success = true ∧
      (5/100 < |calculatedGrandTotal (SplitRequest.mk (Receipt.mk [] 0 [] 0)
          [SplitParticipant.mk "p" "P" none none] [] "proportional" "proportional"
          "proportional") - (SplitRequest.mk (Receipt.mk [] 0 [] 0)
          [SplitParticipant.mk "p" "P" none none] [] "proportional" "proportional"
          "proportional").receipt_data.grand_total| →
        SplitWarning.split_total_mismatch ∈ resp.validation_warnings)) :=
  ⟨by simp,
    C5_post_check_never_fails (SplitRequest.mk (Receipt.mk [] 0 [] 0)
      [SplitParticipant.mk "p" "P" none none] [] "proportional" "proportional"
      "proportional") (by simp)⟩

/-- An index below the item count appears in the `unassigned_items` report iff
no in-range assignment mentions it. -/
theorem mem_unassigned_index_iff (req : SplitRequest) (i : ℕ)
    (hi : i < req.receipt_data.items.length) :
    (∃ e ∈ unassignedItemsOf req, e.index = i) ↔ i ∉ assignedIdxs req := by
  unfold unassignedItemsOf
  constructor
  · rintro ⟨e, he, hidx⟩
    simp only [List.mem_map, List.mem_filter] at he
    obtain ⟨p, ⟨hpm, hpf⟩, rfl⟩ := he
    simp only [decide_eq_true_eq] at hpf
    exact hidx ▸ hpf
  · intro hna
    refine ⟨⟨i, (req.receipt_data.items.get ⟨i, hi⟩).name,
        (req.receipt_data.items.get ⟨i, hi⟩).quantity,
        (req.receipt_data.items.get ⟨i, hi⟩).unit_price,
        (req.receipt_data.items.get ⟨i, hi⟩).total_price⟩, ?_, rfl⟩
    simp only [List.mem_map, List.mem_filter]
    refine ⟨(i, req.receipt_data.items.get ⟨i, hi⟩), ⟨?_, by simpa using hna⟩, rfl⟩
    rw [List.mk_mem_enum_iff_getElem?, List.get_eq_getElem]
    exact List.getElem?_eq_getElem hi

/-- The request used to witness the amended C4. -/
def reqC4w : SplitRequest :=
  ⟨⟨[⟨"burger", 1, 10, 10⟩], 10, [], 10⟩,
   [⟨"a", "Alice", none, none⟩],
   [⟨0, ["a"], none⟩],
   "proportional", "proportional", "proportional"⟩

/-- The request refuting C4 as stated: the only assignment names item 0 with
an unknown participant id `"b"`. -/
def reqC4 : SplitRequest :=
  ⟨⟨[⟨"burger", 1, 10, 10⟩], 10, [], 10⟩,
   [⟨"a", "Alice", none, none⟩],
   [⟨0, ["b"], none⟩],
   "proportional", "proportional", "proportional"⟩

/-- C4 (amended): items whose index appears in no *in-range* assignment
are exactly the ones reported in `unassigned_items`; a warning is emitted when
any exist; and an assignment that is skipped (out-of-range index, or no valid
participant ids) contributes nothing to any participant's item list or
subtotal.  (An item whose only assignments have valid indices but no valid
participant ids is counted as assigned and is *not* reported, contrary to the
claim as stated.) -/
theorem C4_unassigned_items (req : SplitRequest) (h : req.participants ≠ []) :
    ∃ resp, calculate_split req = .ok resp ∧
      (∀ i : ℕ, i < req.receipt_data.items.length →
        ((∃ e ∈ resp.unassigned_items, e.index = i) ↔ i ∉ assignedIdxs req)) ∧
      (resp.unassigned_items ≠ [] →
        SplitWarning.items_not_assigned resp.unassigned_items.length ∈
          resp.validation_warnings) ∧
      (∀ a ∈ req.item_assignments, validIds req a = [] →
        ∀ pid, assignEntries req a pid = []) ∧
      (∀ a ∈ req.item_assignments,
        ¬ (0 ≤ a.item_index ∧ a.item_index < (req.receipt_data.items.length : ℤ)) →
        ∀ pid, assignEntries req a pid = []) := by
  refine ⟨_, calculate_split_ok req h, ?_, ?_, ?_, ?_⟩
  · intro i hi
    exact mem_unassigned_index_iff req i hi
  · intro hne
    show SplitWarning.items_not_assigned (unassignedItemsOf req).length ∈ warningsOf req
    unfold warningsOf
    refine List.mem_append.mpr (Or.inl (List.mem_append.mpr (Or.inr ?_)))
    rw [if_pos hne]
    exact List.mem_singleton.mpr rfl
  · intro a ha hv pid
    simp [assignEntries, hv]
  · intro a ha hr pid
    simp [assignEntries, hr]

theorem C4_unassigned_items_witness :
    (reqC4w.participants ≠ []) ∧
    (∃ resp, calculate_split reqC4w = .ok resp ∧
      (∀ i : ℕ, i < reqC4w.receipt_data.items.length →
        ((∃ e ∈ resp.unassigned_items, e.index = i) ↔ i ∉ assignedIdxs reqC4w)) ∧
      (resp.unassigned_items ≠ [] →
        SplitWarning.items_not_assigned resp.unassigned_items.length ∈
          resp.validation_warnings) ∧
      (∀ a ∈ reqC4w.item_assignments, validIds reqC4w a = [] →
        ∀ pid, assignEntries reqC4w a pid = []) ∧
      (∀ a ∈ reqC4w.item_assignments,
        ¬ (0 ≤ a.item_index ∧ a.item_index < (reqC4w.receipt_data.items.length : ℤ)) →
        ∀ pid, assignEntries reqC4w a pid = [])) :=
  ⟨by simp [reqC4w], C4_unassigned_items reqC4w (by simp [reqC4w])⟩

/-- C4 counterexample: in `reqC4` item 0's only assignment has no valid
participant ids, so it has no surviving valid assignment — yet the response's
`unassigned_items` list is empty, because the code marks the index as assigned
before validating the participant ids. -/
theorem C4_counterexample :
    (calculate_split reqC4).toOption.map (·.unassigned_items) = some [] ∧
    validIds reqC4 ⟨0, ["b"], none⟩ = [] ∧
    reqC4.item_assignments = [⟨0, ["b"], none⟩] ∧
    reqC4.receipt_data.items.length = 1 := by
  refine ⟨?_, by simp [validIds, reqC4], rfl, rfl⟩
  rw [calculate_split_ok reqC4 (by simp [reqC4])]
  show some (unassignedItemsOf reqC4) = some []
  congr 1

/-- The classification fold, started from arbitrary accumulators. -/
theorem bucketTotals_foldl (cs : List Charge) (t s d : ℚ) :
    cs.foldl bucketStep (t, s, d) =
      (t + ((cs.filter (fun c => !decide (c.amount < 0) && !serviceName c.name)).map
          (·.amount)).sum,
       s + ((cs.filter (fun c => !decide (c.amount < 0) && serviceName c.name)).map
          (·.amount)).sum,
       d + ((cs.filter (fun c => decide (c.amount < 0))).map
          (fun c => |c.amount|)).sum) := by
  induction cs generalizing t s d with
  | nil => simp
  | cons c cs ih =>
    rw [List.foldl_cons]
    by_cases h1 : c.amount < 0
    · rw [show bucketStep (t, s, d) c = (t, s, d + |c.amount|) from by
        simp [bucketStep, h1], ih]
      simp [List.filter_cons, h1, Prod.ext_iff]; ring
    · by_cases h2 : serviceName c.name
      · rw [show bucketStep (t, s, d) c = (t, s + c.amount, d) from by
          simp [bucketStep, h1, h2], ih]
        simp [List.filter_cons, h1, h2, Prod.ext_iff]; ring
      · have h2' : serviceName c.name = false := by
          simpa using h2
        rw [show bucketStep (t, s, d) c = (t + c.amount, s, d) from by
          simp [bucketStep, h1, h2'], ih]
        simp [List.filter_cons, h1, h2', Prod.ext_iff]; ring

/-- C6 (confirmed): the charge-classification loop computes: discount
bucket = Σ |amount| over negative-amount lines; service-charge bucket =
Σ amount over nonnegative lines whose lowercased name contains "service" or
"svc"; tax bucket = Σ amount over the remaining lines. -/
theorem C6_bucket_classification (charges : List Charge) :
    bucketTotals charges =
      (((charges.filter (fun c => !decide (c.amount < 0) && !serviceName c.name)).map
          (·.amount)).sum,
       ((charges.filter (fun c => !decide (c.amount < 0) && serviceName c.name)).map
          (·.amount)).sum,
       ((charges.filter (fun c => decide (c.amount < 0))).map
          (fun c => |c.amount|)).sum) := by
  unfold bucketTotals
  rw [bucketTotals_foldl]
  simp

/-- Per-bucket conservation of the unrounded shares, for any mode string and
any bucket total. -/
theorem shareOf_sum (req : SplitRequest) (h : req.participants ≠ [])
    (mode : String) (T : ℚ) :
    ((uids req).map (shareOf req mode T)).sum = T := by
  have hn : (uids req).length ≠ 0 :=
    fun hc => uids_ne_nil req h (List.length_eq_zero.mp hc)
  have hnq : ((uids req).length : ℚ) ≠ 0 := Nat.cast_ne_zero.mpr hn
  unfold shareOf
  by_cases hm : mode = "equal"
  · simp only [hm, if_true, reduceIte]
    rw [List.map_const', List.sum_replicate, nsmul_eq_mul, mul_comm,
      div_mul_cancel₀ T hnq]
  · simp only [hm, if_false, reduceIte]
    unfold proportionOf
    by_cases hts : 0 < totalSubtotal req
    · simp only [hts, if_true, reduceIte]
      have he : (fun pid => T * (personSubtotal req pid / totalSubtotal req)) =
          fun pid => (T / totalSubtotal req) * personSubtotal req pid := by
        funext pid
        ring
      rw [he, List.sum_map_mul_left]
      show T / totalSubtotal req * totalSubtotal req = T
      exact div_mul_cancel₀ T (ne_of_gt hts)
    · simp only [hts, if_false, reduceIte]
      rw [List.map_const', List.sum_replicate, nsmul_eq_mul]
      field_simp

/-- C10 (confirmed): for every request with at least one participant, the
unrounded per-participant shares of each of the three buckets sum exactly to
that bucket's total, under whichever distribution mode the request selects. -/
theorem C10_bucket_conservation (req : SplitRequest)
    (h : req.participants ≠ []) :
    ((uids req).map (shareOf req req.tax_distribution (taxTotalOf req))).sum =
        taxTotalOf req ∧
    ((uids req).map
        (shareOf req req.service_charge_distribution (serviceTotalOf req))).sum =
        serviceTotalOf req ∧
    ((uids req).map
        (shareOf req req.discount_distribution (discountTotalOf req))).sum =
        discountTotalOf req :=
  ⟨shareOf_sum req h _ _, shareOf_sum req h _ _, shareOf_sum req h _ _⟩

theorem C10_bucket_conservation_witness :
    ((SplitRequest.mk (Receipt.mk [Item.mk "a" 1 10 10] 10
        [Charge.mk "tax" 1 none] 11) [SplitParticipant.mk "p" "P" none none]
        [ItemAssignment.mk 0 ["p"] none] "proportional" "equal"
        "proportional").participants ≠ []) ∧
    (((uids (SplitRequest.mk (Receipt.mk [Item.mk "a" 1 10 10] 10
          [Charge.mk "tax" 1 none] 11) [SplitParticipant.mk "p" "P" none none]
          [ItemAssignment.mk 0 ["p"] none] "proportional" "equal"
          "proportional")).map
        (shareOf (SplitRequest.mk (Receipt.mk [Item.mk "a" 1 10 10] 10
          [Charge.mk "tax" 1 none] 11) [SplitParticipant.mk "p" "P" none none]
          [ItemAssignment.mk 0 ["p"] none] "proportional" "equal"
          "proportional")
          (SplitRequest.mk (Receipt.mk [Item.mk "a" 1 10 10] 10
          [Charge.mk "tax" 1 none] 11) [SplitParticipant.mk "p" "P" none none]
          [ItemAssignment.mk 0 ["p"] none] "proportional" "equal"
          "proportional").tax_distribution
          (taxTotalOf (SplitRequest.mk (Receipt.mk [Item.mk "a" 1 10 10] 10
          [Charge.mk "tax" 1 none] 11) [SplitParticipant.mk "p" "P" none none]
          [ItemAssignment.mk 0 ["p"] none] "proportional" "equal"
          "proportional")))).sum =
      taxTotalOf (SplitRequest.mk (Receipt.mk [Item.mk "a" 1 10 10] 10
          [Charge.mk "tax" 1 none] 11) [SplitParticipant.mk "p" "P" none none]
          [ItemAssignment.mk 0 ["p"] none] "proportional" "equal"
          "proportional") ∧
      ((uids (SplitRequest.mk (Receipt.mk [Item.mk "a" 1 10 10] 10
          [Charge.mk "tax" 1 none] 11) [SplitParticipant.mk "p" "P" none none]
          [ItemAssignment.mk 0 ["p"] none] "proportional" "equal"
          "proportional")).map
        (shareOf (SplitRequest.mk (Receipt.mk [Item.mk "a" 1 10 10] 10
          [Charge.mk "tax" 1 none] 11) [SplitParticipant.mk "p" "P" none none]
          [ItemAssignment.mk 0 ["p"] none] "proportional" "equal"
          "proportional")
          (SplitRequest.mk (Receipt.mk [Item.mk "a" 1 10 10] 10
          [Charge.mk "tax" 1 none] 11) [SplitParticipant.mk "p" "P" none none]
          [ItemAssignment.mk 0 ["p"] none] "proportional" "equal"
          "proportional").service_charge_distribution
          (serviceTotalOf (SplitRequest.mk (Receipt.mk [Item.mk "a" 1 10 10] 10
          [Charge.mk "tax" 1 none] 11) [SplitParticipant.mk "p" "P" none none]
          [ItemAssignment.mk 0 ["p"] none] "proportional" "equal"
          "proportional")))).sum =
      serviceTotalOf (SplitRequest.mk (Receipt.mk [Item.mk "a" 1 10 10] 10
          [Charge.mk "tax" 1 none] 11) [SplitParticipant.mk "p" "P" none none]
          [ItemAssignment.mk 0 ["p"] none] "proportional" "equal"
          "proportional") ∧
      ((uids (SplitRequest.mk (Receipt.mk [Item.mk "a" 1 10 10] 10
          [Charge.mk "tax" 1 none] 11) [SplitParticipant.mk "p" "P" none none]
          [ItemAssignment.mk 0 ["p"] none] "proportional" "equal"
          "proportional")).map
        (shareOf (SplitRequest.mk (Receipt.mk [Item.mk "a" 1 10 10] 10
          [Charge.mk "tax" 1 none] 11) [SplitParticipant.mk "p" "P" none none]
          [ItemAssignment.mk 0 ["p"] none] "proportional" "equal"
          "proportional")
          (SplitRequest.mk (Receipt.mk [Item.mk "a" 1 10 10] 10
          [Charge.mk "tax" 1 none] 11) [SplitParticipant.mk "p" "P" none none]
          [ItemAssignment.mk 0 ["p"] none] "proportional" "equal"
          "proportional").discount_distribution
          (discountTotalOf (SplitRequest.mk (Receipt.mk [Item.mk "a" 1 10 10] 10
          [Charge.mk "tax" 1 none] 11) [SplitParticipant.mk "p" "P" none none]
          [ItemAssignment.mk 0 ["p"] none] "proportional" "equal"
          "proportional")))).sum =
      discountTotalOf (SplitRequest.mk (Receipt.mk [Item.mk "a" 1 10 10] 10
          [Charge.mk "tax" 1 none] 11) [SplitParticipant.mk "p" "P" none none]
          [ItemAssignment.mk 0 ["p"] none] "proportional" "equal"
          "proportional")) :=
  ⟨by simp,
    C10_bucket_conservation (SplitRequest.mk (Receipt.mk [Item.mk "a" 1 10 10] 10
      [Charge.mk "tax" 1 none] 11) [SplitParticipant.mk "p" "P" none none]
      [ItemAssignment.mk 0 ["p"] none] "proportional" "equal" "proportional")
      (by simp)⟩

end BillSplitter
